import Mathlib

/-!
Verification of the Ginue-AI (GAIM Lab) frontend against its specification.

The development shallowly embeds the relevant parts of the React frontend:
the AI-coach chat page (`AICoach.jsx`), the upload page (`Upload.jsx`),
the analysis result page (`Analysis.jsx`), the dashboard and the portfolio
page.  JavaScript strings become Lean `String`s, objects become structures,
and the stateful `useState` hooks become explicit state records transformed
by pure functions.
-/

namespace GinueAI

/-! ## Substring containment (JavaScript `String.includes`) -/

/-- Decides whether the characters of `pat` occur at the start of `s`. -/
def charsStartWith : List Char → List Char → Bool
  | [], _ => true
  | _ :: _, [] => false
  | a :: as, b :: bs => a == b && charsStartWith as bs

/-- Decides whether `pat` occurs contiguously anywhere inside the second list. -/
def charsContain (pat : List Char) : List Char → Bool
  | [] => pat.isEmpty
  | b :: bs => charsStartWith pat (b :: bs) || charsContain pat bs

/-- Embeds JavaScript `s.includes(pat)`: substring containment. -/
def strIncludes (s pat : String) : Bool := charsContain pat.data s.data

/-- Embeds JavaScript `s.trim()`: strips whitespace from both ends. -/
def strTrim (s : String) : String :=
  ⟨((s.data.dropWhile Char.isWhitespace).reverse.dropWhile Char.isWhitespace).reverse⟩

/-! ## AICoach.jsx: suggestion list and fallback responder -/

/-- The fixed suggestion-question list `SUGGESTION_QUESTIONS` of `AICoach.jsx`. -/
def SUGGESTION_QUESTIONS : List String := [
  "이번 수업에서 어떤 점을 개선할 수 있을까요?",
  "효과적인 발문 기법을 알려주세요",
  "학생 참여를 높이는 방법은?",
  "시간 배분을 어떻게 개선할 수 있나요?",
  "습관어를 줄이는 방법을 알려주세요"
]

/-- Templated answer stored under the key `발문` (questioning techniques). -/
def questioningResponse : String :=
  "효과적인 발문 기법으로는:\n\n1. **개방형 질문 활용**: \"왜 그렇게 생각하나요?\" 같은 질문으로 사고를 확장시키세요.\n2. **대기 시간 확보**: 질문 후 3-5초 기다려 학생들이 생각할 시간을 주세요.\n3. **연쇄 질문**: 학생 답변에 이어지는 후속 질문으로 심화 학습을 유도하세요."

/-- Templated answer stored under the key `참여` (student engagement). -/
def engagementResponse : String :=
  "학생 참여를 높이려면:\n\n1. **짝토의/모둠활동**: 모든 학생이 발언 기회를 갖도록 합니다.\n2. **Think-Pair-Share**: 개별 사고 → 짝 토의 → 전체 공유\n3. **실시간 피드백**: 학생 반응에 즉각적으로 반응해 주세요."

/-- Templated answer stored under the key `시간` (time management). -/
def timeResponse : String :=
  "시간 배분 개선 방법:\n\n1. **도입 5분, 전개 30분, 정리 10분** 기본 틀을 유지하세요.\n2. **타이머 활용**: 각 활동에 시간을 할당하세요.\n3. **우선순위 설정**: 핵심 내용에 집중하고 부가 내용은 유연하게 조절하세요."

/-- Templated answer stored under the key `습관어` (filler words). -/
def fillerResponse : String :=
  "습관어를 줄이려면:\n\n1. **녹화 분석**: 자신의 수업을 녹화해서 습관어를 파악하세요.\n2. **의도적 멈춤**: 습관어 대신 잠시 멈추는 연습을 하세요.\n3. **연습, 연습**: 발표 연습을 통해 의식적으로 개선하세요."

/-- Templated answer stored under the key `default`. -/
def defaultResponse : String :=
  "좋은 질문입니다! 수업 역량 향상을 위해 몇 가지 팁을 드릴게요:\n\n1. **자기 분석**: 정기적으로 수업을 녹화하고 분석해 보세요.\n2. **동료 피드백**: 동료 교사의 수업을 참관하고 피드백을 나누세요.\n3. **교육 이론 학습**: 최신 교수법을 지속적으로 학습하세요.\n\n더 구체적인 질문이 있으시면 말씀해 주세요!"

/-- The `responses` object of `generateFallbackResponse`, as the ordered list of
entries that `Object.entries` yields (string-keyed insertion order). -/
def fallbackResponses : List (String × String) := [
  ("발문", questioningResponse),
  ("참여", engagementResponse),
  ("시간", timeResponse),
  ("습관어", fillerResponse),
  ("default", defaultResponse)
]

/-- Embeds the `for (const [keyword, response] of Object.entries(responses))`
loop: the first entry whose key is contained in the question wins; after the
loop the function returns `responses.default`. -/
def lookupResponse : List (String × String) → String → String
  | [], _ => defaultResponse
  | (k, r) :: rest, q => if strIncludes q k then r else lookupResponse rest q

/-- Embeds `generateFallbackResponse` of `AICoach.jsx`. -/
def generateFallbackResponse (question : String) : String :=
  lookupResponse fallbackResponses question

/-! ## AICoach.jsx: chat state and `sendMessage` -/

/-- One chat message (role and content; the `id`/`timestamp` fields carry no
logic relevant to the claims). -/
structure ChatMessage where
  role : String
  content : String
deriving DecidableEq

/-- The state hooks of the `AICoach` component. -/
structure ChatState where
  messages : List ChatMessage
  inputValue : String
  isLoading : Bool
  sessionId : Option String
  suggestions : List String
deriving DecidableEq

/-- The greeting message initially shown by the coach. -/
def welcomeMessage : ChatMessage :=
  ⟨"assistant",
   "안녕하세요! 저는 GAIM Lab의 AI 수업 코치입니다. 🎓\n\n수업 분석 결과에 대한 질문이나, 수업 역량 향상을 위한 조언이 필요하시면 언제든 물어보세요!\n\n어떤 도움이 필요하신가요?"⟩

/-- The initial `useState` values of the `AICoach` component. -/
def initialChatState : ChatState :=
  { messages := [welcomeMessage]
    inputValue := ""
    isLoading := false
    sessionId := none
    suggestions := SUGGESTION_QUESTIONS.take 3 }

/-- A successful response from `/api/v1/chat/message`. -/
structure BackendReply where
  session_id : String
  content : String
  suggestions : List String
deriving DecidableEq

/-- Result of one `sendMessage` call: the updated component state and whether a
chat request was issued to the backend at all. -/
structure SendResult where
  state : ChatState
  requested : Bool
deriving DecidableEq

/-- Embeds `sendMessage` of `AICoach.jsx`.  `backend = some d` is a successful
fetch whose JSON is `d`; `backend = none` is a failed or unavailable backend
(fetch rejection or non-ok response), which lands in the `catch` block. -/
def sendMessage (st : ChatState) (messageText : String) (backend : Option BackendReply) :
    SendResult :=
  if strTrim messageText = "" || st.isLoading then ⟨st, false⟩
  else
    let afterUser : ChatState :=
      { st with
          messages := st.messages ++ [⟨"user", messageText⟩]
          inputValue := ""
          isLoading := true
          suggestions := [] }
    match backend with
    | some d =>
        ⟨{ afterUser with
             sessionId := some d.session_id
             messages := afterUser.messages ++ [⟨"assistant", d.content⟩]
             suggestions := d.suggestions
             isLoading := false }, true⟩
    | none =>
        ⟨{ afterUser with
             messages := afterUser.messages ++
               [⟨"assistant", generateFallbackResponse messageText⟩]
             suggestions := SUGGESTION_QUESTIONS.take 3
             isLoading := false }, true⟩

/-- The scenario message of the spec (entry 3 of `SUGGESTION_QUESTIONS`). -/
def timeQuestion : String := "시간 배분을 어떻게 개선할 수 있나요?"

/-! ## Analysis.jsx: the demo Evaluation and the dimension labels -/

/-- One entry of `evaluation.dimensions`: key, score, max and feedback. -/
structure DimensionScore where
  dimId : String
  score : Nat
  max_score : Nat
  feedback : String
deriving DecidableEq

/-- The `dimensions` object of `DEMO_RESULT.evaluation` in `Analysis.jsx`, as
the ordered list of its entries (string-keyed insertion order). -/
def DEMO_RESULT_dimensions : List DimensionScore := [
  ⟨"teaching_expertise", 17, 20, "학습 목표가 명확하게 제시되었습니다."⟩,
  ⟨"teaching_method", 16, 20, "다양한 교수법을 활용하고 있습니다."⟩,
  ⟨"communication", 13, 15, "습관어 3회 감지됨. 발화 명료성이 우수합니다."⟩,
  ⟨"teaching_attitude", 12, 15, "자신감 있는 수업 태도가 돋보입니다."⟩,
  ⟨"student_engagement", 11, 15, "학생과의 상호작용이 활발합니다."⟩,
  ⟨"time_management", 8, 10, "시간 배분이 적절합니다."⟩,
  ⟨"creativity", 4, 5, "창의적인 질문 기법을 사용했습니다."⟩
]

/-- `DEMO_RESULT.evaluation.total_score` in `Analysis.jsx`. -/
def DEMO_RESULT_total_score : Nat := 84

/-- `DEMO_RESULT.evaluation.grade` in `Analysis.jsx`. -/
def DEMO_RESULT_grade : String := "A"

/-- The `DIMENSION_LABELS` object of `Analysis.jsx`, as its ordered entries. -/
def DIMENSION_LABELS : List (String × String) := [
  ("teaching_expertise", "수업 전문성"),
  ("teaching_method", "교수학습 방법"),
  ("communication", "판서 및 언어"),
  ("teaching_attitude", "수업 태도"),
  ("student_engagement", "학생 참여"),
  ("time_management", "시간 배분"),
  ("creativity", "창의성")
]

/-- The fixed 7-dimension schedule of identifiers and point maxima. -/
def fixedSchedule : List (String × Nat) := [
  ("teaching_expertise", 20),
  ("teaching_method", 20),
  ("communication", 15),
  ("teaching_attitude", 15),
  ("student_engagement", 15),
  ("time_management", 10),
  ("creativity", 5)
]

/-! ## Dashboard (part_002): demo dimension bars and recent analyses -/

/-- One row of the dashboard's `DEMO_DIMENSIONS`: Korean label, score, max. -/
structure DashDimension where
  dimension : String
  score : Nat
  maxScore : Nat
deriving DecidableEq

/-- `DEMO_DIMENSIONS` of the Dashboard page. -/
def DEMO_DIMENSIONS : List DashDimension := [
  ⟨"수업 전문성", 16, 20⟩,
  ⟨"교수학습 방법", 15, 20⟩,
  ⟨"판서 및 언어", 12, 15⟩,
  ⟨"수업 태도", 11, 15⟩,
  ⟨"학생 참여", 10, 15⟩,
  ⟨"시간 배분", 7, 10⟩,
  ⟨"창의성", 3, 5⟩
]

/-- The (score, grade) pairs of the Dashboard's `DEMO_RECENT` list. -/
def DEMO_RECENT_grades : List (Nat × String) :=
  [(84, "A"), (81, "A"), (79, "B+"), (76, "B")]

/-! ## Portfolio.jsx: demo sessions -/

/-- The (score, grade) pairs of `DEMO_SESSIONS` in `Portfolio.jsx`, in list
order (descending score). -/
def DEMO_SESSIONS_grades : List (Nat × String) :=
  [(84, "A"), (81, "A"), (79, "B+"), (76, "B"), (75, "B"), (73, "B")]

/-- Every (total score, letter grade) pair the program displays: the Portfolio
sessions, the Dashboard recent list and the Analysis page demo result. -/
def displayedResults : List (Nat × String) :=
  DEMO_SESSIONS_grades ++ DEMO_RECENT_grades ++ [(DEMO_RESULT_total_score, DEMO_RESULT_grade)]

/-- Rank of a letter grade, higher is better; unknown grades rank lowest. -/
def gradeRank (g : String) : Nat :=
  if g = "A+" then 6
  else if g = "A" then 5
  else if g = "B+" then 4
  else if g = "B" then 3
  else if g = "C+" then 2
  else if g = "C" then 1
  else 0

/-- Modelled from the spec: the score-to-grade table itself lives in the
scoring backend, which is not under `src/`; the spec only fixes that it is a
monotonic threshold table with 84 mapping to A and 73 to B.  This concrete
threshold table witnesses that the displayed demo data are consistent with
one such fixed monotonic table. -/
def gradeOf (s : Nat) : String :=
  if 90 ≤ s then "A+"
  else if 80 ≤ s then "A"
  else if 78 ≤ s then "B+"
  else if 70 ≤ s then "B"
  else if 60 ≤ s then "C"
  else "F"

/-! ## Upload.jsx: file validation and drop handling -/

/-- A dropped or selected file: its MIME `type` and its `name`. -/
structure MediaFile where
  type : String
  name : String
deriving DecidableEq

/-- The `validTypes` whitelist of `isValidVideo` in `Upload.jsx`. -/
def validTypes : List String :=
  ["video/mp4", "video/avi", "video/quicktime", "video/x-matroska", "video/webm"]

/-- Lower-cased extensions accepted by the regex of `isValidVideo`. -/
def videoExts : List String := [".mp4", ".avi", ".mov", ".mkv", ".webm"]

/-- Decides whether the characters of `pat` occur at the end of `s`. -/
def charsEndWith (pat s : List Char) : Bool :=
  charsStartWith pat.reverse s.reverse

/-- Embeds the regex test of the filename against the lower-case extension
list: the regex is anchored at the end of the string and case-insensitive, so
it holds exactly when the lower-cased name ends in one of the extensions. -/
def extMatch (name : String) : Bool :=
  videoExts.any fun e => charsEndWith e.data (name.data.map Char.toLower)

/-- Embeds `isValidVideo` of `Upload.jsx`: MIME whitelist or extension match. -/
def isValidVideo (f : MediaFile) : Bool :=
  validTypes.contains f.type || extMatch f.name

/-- The file-selection state touched by `handleDrop`. -/
structure UploadSelection where
  file : Option MediaFile
  error : Option String
deriving DecidableEq

/-- The unsupported-format error message set by `handleDrop`. -/
def unsupportedFormatError : String :=
  "지원되지 않는 파일 형식입니다. MP4, AVI, MOV, MKV 파일을 업로드하세요."

/-- Embeds `handleDrop` of `Upload.jsx`: a valid dropped file is selected and
the error cleared; anything else sets the unsupported-format error and leaves
the selected file unchanged. -/
def handleDrop (st : UploadSelection) (dropped : Option MediaFile) : UploadSelection :=
  match dropped with
  | some f =>
      if isValidVideo f then ⟨some f, none⟩
      else ⟨st.file, some unsupportedFormatError⟩
  | none => ⟨st.file, some unsupportedFormatError⟩

/-- Spec-side whitelist predicate, following the claim's words: the MIME type
is one of the five listed container types, or the filename ends in one of the
five listed extensions, case-insensitively. -/
def SpecWhitelisted (f : MediaFile) : Prop :=
  (f.type = "video/mp4" ∨ f.type = "video/avi" ∨ f.type = "video/quicktime" ∨
   f.type = "video/x-matroska" ∨ f.type = "video/webm") ∨
  (∃ e ∈ videoExts, charsEndWith e.data (f.name.data.map Char.toLower) = true)

/-! ## Upload.jsx: analysis-step thresholds -/

/-- The `completed` prop of the frame-extraction `AnalysisStep`. -/
def stepExtractionDone (p : Int) : Bool := decide (30 ≤ p)

/-- The `active` prop of the frame-extraction `AnalysisStep`. -/
def stepExtractionActive (p : Int) : Bool := decide (0 < p) && decide (p < 30)

/-- The `completed` prop of the speech-recognition (STT) `AnalysisStep`. -/
def stepSttDone (p : Int) : Bool := decide (50 ≤ p)

/-- The `active` prop of the speech-recognition (STT) `AnalysisStep`. -/
def stepSttActive (p : Int) : Bool := decide (30 ≤ p) && decide (p < 50)

/-- The `completed` prop of the emotion-analysis `AnalysisStep`. -/
def stepEmotionDone (p : Int) : Bool := decide (70 ≤ p)

/-- The `active` prop of the emotion-analysis `AnalysisStep`. -/
def stepEmotionActive (p : Int) : Bool := decide (50 ≤ p) && decide (p < 70)

/-- The `completed` prop of the 7-dimension-evaluation `AnalysisStep`. -/
def stepEvalDone (p : Int) : Bool := decide (90 ≤ p)

/-- The `active` prop of the 7-dimension-evaluation `AnalysisStep`. -/
def stepEvalActive (p : Int) : Bool := decide (70 ≤ p) && decide (p < 90)

/-- The `completed` prop of the report-generation `AnalysisStep`. -/
def stepReportDone (p : Int) : Bool := decide (100 ≤ p)

/-- The `active` prop of the report-generation `AnalysisStep`. -/
def stepReportActive (p : Int) : Bool := decide (90 ≤ p) && decide (p < 100)

/-- The five analysis-step labels with their completion thresholds, in the
order they are rendered in `Upload.jsx`. -/
def analysisStepThresholds : List (String × Int) := [
  ("프레임 추출", 30),
  ("음성 인식 (STT)", 50),
  ("감정 분석", 70),
  ("7차원 평가", 90),
  ("리포트 생성", 100)
]

/-! ## Upload.jsx: WebSocket subscriber and simulated upload progress -/

/-- One event received on the analysis WebSocket. -/
inductive WsEvent where
  | progressEv (value : Int)
  | completeEv
  | errorEv (msg : String)
deriving DecidableEq

/-- The state hooks touched by `ws.onmessage`, plus a `closed` flag recording
that `ws.close()` was called (after which no further messages arrive). -/
structure WsClientState where
  status : String
  analysisProgress : Int
  errorMsg : Option String
  closed : Bool
deriving DecidableEq

/-- The client state right after `startAnalysis` sets up the socket. -/
def initialWsState : WsClientState :=
  { status := "analyzing", analysisProgress := 0, errorMsg := none, closed := false }

/-- Embeds `ws.onmessage` of `startAnalysis`: progress events update the
progress bar, the first terminal event updates status and closes the socket,
and nothing is processed once the socket is closed. -/
def wsStep (st : WsClientState) (e : WsEvent) : WsClientState :=
  if st.closed then st
  else
    match e with
    | .progressEv v => { st with analysisProgress := v }
    | .completeEv => { st with status := "completed", analysisProgress := 100, closed := true }
    | .errorEv m => { st with status := "error", errorMsg := some m, closed := true }

/-- Runs the subscriber over a list of delivered events. -/
def runWs (st : WsClientState) (evs : List WsEvent) : WsClientState :=
  evs.foldl wsStep st

/-- Whether an event is terminal (`complete` or `error`). -/
def isTerminalEv : WsEvent → Bool
  | .progressEv _ => false
  | .completeEv => true
  | .errorEv _ => true

/-- The progress payloads of a list of events. -/
def progressValues (evs : List WsEvent) : List Int :=
  evs.filterMap fun e =>
    match e with
    | .progressEv v => some v
    | _ => none

/-- The sequence of values the subscriber passes to `setAnalysisProgress`:
each processed progress event contributes its value, a processed `complete`
contributes 100, and nothing is recorded once the socket is closed. -/
def wsTraceAux (closed : Bool) : List WsEvent → List Int
  | [] => []
  | e :: rest =>
    if closed then []
    else
      match e with
      | .progressEv v => v :: wsTraceAux false rest
      | .completeEv => 100 :: wsTraceAux true rest
      | .errorEv _ => wsTraceAux true rest

/-- The progress values observed by a fresh subscriber of one job. -/
def observedProgress (evs : List WsEvent) : List Int := wsTraceAux false evs

/-- Modelled from the spec: the server side of the Progress Channel (the
Orchestrator that emits the events) is not under `src/`; only the subscriber
is.  Per the spec, a job's event stream delivers non-decreasing progress
values within [0,100] and exactly one terminal event, which closes the
stream, so the terminal event is last. -/
def ValidStream (evs : List WsEvent) : Prop :=
  List.Chain' (· ≤ ·) (progressValues evs) ∧
  (∀ v ∈ progressValues evs, 0 ≤ v ∧ v ≤ 100) ∧
  ∃ pre t, evs = pre ++ [t] ∧ isTerminalEv t = true ∧ ∀ e ∈ pre, isTerminalEv e = false

/-- Embeds one tick of the simulated-upload interval in `handleUpload`:
`prev >= 90` keeps the value, otherwise it advances by 10. -/
def uploadTick (p : Int) : Int := if 90 ≤ p then p else p + 10

/-- A sample valid event stream used as a concrete witness. -/
def demoStream : List WsEvent :=
  [.progressEv 20, .progressEv 50, .progressEv 90, .completeEv]

/-! ## Helper lemmas for the WebSocket subscriber -/

theorem wsStep_closed (st : WsClientState) (e : WsEvent) (h : st.closed = true) :
    wsStep st e = st := by
  simp [wsStep, h]

theorem runWs_closed (evs : List WsEvent) (st : WsClientState) (h : st.closed = true) :
    runWs st evs = st := by
  induction evs generalizing st with
  | nil => rfl
  | cons e rest ih =>
      show runWs (wsStep st e) rest = st
      rw [wsStep_closed st e h]
      exact ih st h

theorem runWs_append (st : WsClientState) (l₁ l₂ : List WsEvent) :
    runWs st (l₁ ++ l₂) = runWs (runWs st l₁) l₂ := by
  simp [runWs, List.foldl_append]

theorem eq_progressEv_of_not_terminal (e : WsEvent) (h : isTerminalEv e = false) :
    ∃ v, e = WsEvent.progressEv v := by
  cases e with
  | progressEv v => exact ⟨v, rfl⟩
  | completeEv => simp [isTerminalEv] at h
  | errorEv m => simp [isTerminalEv] at h

theorem wsTraceAux_false_append (pre suf : List WsEvent)
    (h : ∀ e ∈ pre, isTerminalEv e = false) :
    wsTraceAux false (pre ++ suf) = progressValues pre ++ wsTraceAux false suf := by
  induction pre with
  | nil => simp [progressValues]
  | cons e rest ih =>
      obtain ⟨v, rfl⟩ := eq_progressEv_of_not_terminal e (h e (List.mem_cons_self e rest))
      have ih2 := ih fun x hx => h x (List.mem_cons_of_mem _ hx)
      simp [wsTraceAux, progressValues, List.filterMap_cons] at ih2 ⊢
      exact ih2

theorem runWs_progress_closed (pre : List WsEvent) (st : WsClientState)
    (hst : st.closed = false) (h : ∀ e ∈ pre, isTerminalEv e = false) :
    (runWs st pre).closed = false := by
  induction pre generalizing st with
  | nil => exact hst
  | cons e rest ih =>
      obtain ⟨v, rfl⟩ := eq_progressEv_of_not_terminal e (h e (List.mem_cons_self e rest))
      show (runWs (wsStep st (WsEvent.progressEv v)) rest).closed = false
      have hstep : (wsStep st (WsEvent.progressEv v)).closed = false := by
        simp [wsStep, hst]
      exact ih _ hstep fun x hx => h x (List.mem_cons_of_mem _ hx)

theorem wsStep_terminal_closes (st : WsClientState) (t : WsEvent)
    (hst : st.closed = false) (ht : isTerminalEv t = true) :
    (wsStep st t).closed = true := by
  cases t with
  | progressEv v => simp [isTerminalEv] at ht
  | completeEv => simp [wsStep, hst]
  | errorEv m => simp [wsStep, hst]

theorem progressValues_terminal_last (pre : List WsEvent) (t : WsEvent)
    (ht : isTerminalEv t = true) :
    progressValues (pre ++ [t]) = progressValues pre := by
  cases t with
  | progressEv v => simp [isTerminalEv] at ht
  | completeEv => simp [progressValues, List.filterMap_append]
  | errorEv m => simp [progressValues, List.filterMap_append]

/-! ## Theorems about the claims -/

/-- C1: the claim asserts that every displayed Evaluation has
`total_score = sum of dimension scores`, each score within its max and the
maxes summing to 100.  On the Analysis page's `DEMO_RESULT` the seven
dimension scores sum to 81 while `total_score` is 84, so the sum invariant
fails on the displayed data; the per-dimension bounds and the 100-point max
schedule do hold, and the Dashboard's `DEMO_DIMENSIONS` satisfies both. -/
theorem C1_demo_result_total_mismatch :
    (DEMO_RESULT_dimensions.map DimensionScore.score).sum = 81 ∧
    DEMO_RESULT_total_score = 84 ∧
    (DEMO_RESULT_dimensions.map DimensionScore.score).sum ≠ DEMO_RESULT_total_score ∧
    (∀ d ∈ DEMO_RESULT_dimensions, d.score ≤ d.max_score) ∧
    (DEMO_RESULT_dimensions.map DimensionScore.max_score).sum = 100 ∧
    (∀ d ∈ DEMO_DIMENSIONS, d.score ≤ d.maxScore) ∧
    (DEMO_DIMENSIONS.map DashDimension.maxScore).sum = 100 := by
  refine ⟨by decide, by decide, by decide, by decide, by decide, by decide, by decide⟩

/-- C2: the displayed (total score, grade) pairs are consistent with a fixed
monotonic score-to-grade table: the concrete threshold table `gradeOf` is
monotone, maps 84 to A and 73 to B, and reproduces every displayed pair; in
particular no displayed pair gives a higher total score a lower grade. -/
theorem C2_grade_table_monotone :
    (∀ s t : Nat, s ≤ t → gradeRank (gradeOf s) ≤ gradeRank (gradeOf t)) ∧
    gradeOf 84 = "A" ∧ gradeOf 73 = "B" ∧
    (∀ p ∈ displayedResults, gradeOf p.1 = p.2) ∧
    (∀ p ∈ displayedResults, ∀ q ∈ displayedResults,
      p.1 ≤ q.1 → gradeRank p.2 ≤ gradeRank q.2) := by
  refine ⟨?_, by decide, by decide, by decide, by decide⟩
  intro s t hst
  unfold gradeOf
  split_ifs <;> first
    | decide
    | (exfalso; omega)

/-- Witness for C2 at the spec's scenario scores 73 and 84. -/
theorem C2_grade_table_monotone_witness :
    gradeRank (gradeOf 73) ≤ gradeRank (gradeOf 84) :=
  C2_grade_table_monotone.1 73 84 (by decide)

/-- C3: when the chat backend call fails or is unavailable (the `catch` path
of `sendMessage`), the caller receives no error: the user message and a
fallback assistant message are appended, the suggestions become the first
three entries of the fixed suggestion list, loading ends, and the session id
is left as it was. -/
theorem C3_backend_failure_masked (st : ChatState) (text : String)
    (hne : ¬ strTrim text = "") (hload : st.isLoading = false) :
    (sendMessage st text none).state.messages =
      st.messages ++ [⟨"user", text⟩, ⟨"assistant", generateFallbackResponse text⟩] ∧
    (sendMessage st text none).state.suggestions = SUGGESTION_QUESTIONS.take 3 ∧
    (sendMessage st text none).state.isLoading = false ∧
    (sendMessage st text none).state.sessionId = st.sessionId ∧
    (sendMessage st text none).requested = true := by
  simp [sendMessage, hne, hload]

/-- Witness for C3 at the initial chat state and a concrete question. -/
theorem C3_backend_failure_masked_witness :
    (sendMessage initialChatState ("효과적인 발문 기법을 알려주세요") none).state.suggestions
      = SUGGESTION_QUESTIONS.take 3 :=
  (C3_backend_failure_masked initialChatState ("효과적인 발문 기법을 알려주세요")
    (by decide) rfl).2.1

/-- C4: the fallback responder is a total function of the message given by the
fixed ordered keyword table with a first-match policy: it always returns one
of the five templated answers, a message containing 발문 gets the 발문 answer
(even if it also contains 시간, since 발문 is checked first), and a message
containing none of the four keywords gets the default templated answer. -/
theorem C4_fallback_first_match :
    (∀ q : String, generateFallbackResponse q = questioningResponse ∨
      generateFallbackResponse q = engagementResponse ∨
      generateFallbackResponse q = timeResponse ∨
      generateFallbackResponse q = fillerResponse ∨
      generateFallbackResponse q = defaultResponse) ∧
    (∀ q : String, strIncludes q ("발문") = true →
      generateFallbackResponse q = questioningResponse) ∧
    (∀ q : String, strIncludes q ("발문") = true → strIncludes q ("시간") = true →
      generateFallbackResponse q = questioningResponse) ∧
    (∀ q : String, strIncludes q ("발문") = false → strIncludes q ("참여") = false →
      strIncludes q ("시간") = false → strIncludes q ("습관어") = false →
      generateFallbackResponse q = defaultResponse) := by
  refine ⟨?_, ?_, ?_, ?_⟩
  · intro q
    simp only [generateFallbackResponse, fallbackResponses, lookupResponse]
    split_ifs <;> first
      | exact Or.inl rfl
      | exact Or.inr (Or.inl rfl)
      | exact Or.inr (Or.inr (Or.inl rfl))
      | exact Or.inr (Or.inr (Or.inr (Or.inl rfl)))
      | exact Or.inr (Or.inr (Or.inr (Or.inr rfl)))
  · intro q h
    simp [generateFallbackResponse, fallbackResponses, lookupResponse, h]
  · intro q h _
    simp [generateFallbackResponse, fallbackResponses, lookupResponse, h]
  · intro q h1 h2 h3 h4
    simp [generateFallbackResponse, fallbackResponses, lookupResponse, h1, h2, h3, h4]

/-- Witness for C4 at a message containing both 발문 and 시간. -/
theorem C4_fallback_first_match_witness :
    generateFallbackResponse ("발문과 시간 배분이 궁금해요") = questioningResponse :=
  C4_fallback_first_match.2.2.1 ("발문과 시간 배분이 궁금해요") (by decide) (by decide)

/-- C5 counterexample: in the spec's scenario (no session id, the
time-management question, backend unavailable) the code's fallback path never
sets the session id, so after the call the session id is still `none`,
refuting the claim that a new session id is created. -/
theorem C5_fallback_leaves_session_null :
    (sendMessage initialChatState timeQuestion none).state.sessionId = none := by
  decide

/-- C5 amended: the scenario call returns the fallback templated
time-management answer (the 시간 entry of the keyword table) rather than an
error, resets the suggestions to the fixed default list, and leaves the
session id null - no session is created locally while the backend is down. -/
theorem C5_time_fallback_no_error :
    generateFallbackResponse timeQuestion = timeResponse ∧
    (sendMessage initialChatState timeQuestion none).state.messages =
      initialChatState.messages ++
        [⟨"user", timeQuestion⟩, ⟨"assistant", timeResponse⟩] ∧
    (sendMessage initialChatState timeQuestion none).state.suggestions =
      SUGGESTION_QUESTIONS.take 3 ∧
    (sendMessage initialChatState timeQuestion none).state.isLoading = false ∧
    (sendMessage initialChatState timeQuestion none).state.sessionId = none := by
  refine ⟨by decide, by decide, by decide, by decide, by decide⟩

/-- C6 counterexample: the claim places the end of frame extraction at
progress 20, but at progress 20 the Upload page still renders the
frame-extraction step as active and not completed - the code's completion
threshold is 30. -/
theorem C6_extraction_threshold_counterexample :
    stepExtractionDone 20 = false ∧ stepExtractionActive 20 = true ∧ (20 : Int) ≥ 20 := by
  decide

/-- C6 amended: the per-stage allocation rendered by the Upload page is frame
extraction up to 30, speech recognition (STT) 30 to 50, emotion analysis 50
to 70, the 7-dimension evaluation 70 to 90 and report generation 90 to 100:
past extraction iff p ≥ 30, past STT iff p ≥ 50, past emotion iff p ≥ 70,
past evaluation iff p ≥ 90, and the report step completes at 100. -/
theorem C6_stage_thresholds :
    (∀ p : Int, stepExtractionDone p = true ↔ 30 ≤ p) ∧
    (∀ p : Int, stepSttDone p = true ↔ 50 ≤ p) ∧
    (∀ p : Int, stepEmotionDone p = true ↔ 70 ≤ p) ∧
    (∀ p : Int, stepEvalDone p = true ↔ 90 ≤ p) ∧
    (∀ p : Int, stepReportDone p = true ↔ 100 ≤ p) ∧
    (∀ p : Int, stepExtractionActive p = true ↔ 0 < p ∧ p < 30) ∧
    (∀ p : Int, stepSttActive p = true ↔ 30 ≤ p ∧ p < 50) ∧
    (∀ p : Int, stepEmotionActive p = true ↔ 50 ≤ p ∧ p < 70) ∧
    (∀ p : Int, stepEvalActive p = true ↔ 70 ≤ p ∧ p < 90) ∧
    (∀ p : Int, stepReportActive p = true ↔ 90 ≤ p ∧ p < 100) ∧
    analysisStepThresholds.map Prod.snd = [30, 50, 70, 90, 100] := by
  refine ⟨?_, ?_, ?_, ?_, ?_, ?_, ?_, ?_, ?_, ?_, by decide⟩ <;>
    intro p <;>
    simp [stepExtractionDone, stepSttDone, stepEmotionDone, stepEvalDone, stepReportDone,
      stepExtractionActive, stepSttActive, stepEmotionActive, stepEvalActive,
      stepReportActive]

/-- Witness for C6 at progress 50. -/
theorem C6_stage_thresholds_witness : stepExtractionDone 50 = true :=
  (C6_stage_thresholds.1 50).mpr (by decide)

/-- C7: the Analysis page's demo Evaluation has exactly the seven fixed
dimension keys with exactly the fixed maxima in the fixed order, the label
table lists the same keys in the same order, the Dashboard's demo dimensions
carry the same maxima under the corresponding Korean labels in the same
order, and the maxima sum to 100. -/
theorem C7_fixed_dimension_schedule :
    DEMO_RESULT_dimensions.map (fun d => (d.dimId, d.max_score)) = fixedSchedule ∧
    DIMENSION_LABELS.map Prod.fst = fixedSchedule.map Prod.fst ∧
    DEMO_DIMENSIONS.map DashDimension.maxScore = fixedSchedule.map Prod.snd ∧
    DEMO_DIMENSIONS.map DashDimension.dimension = DIMENSION_LABELS.map Prod.snd ∧
    (fixedSchedule.map Prod.snd).sum = 100 := by
  refine ⟨by decide, by decide, by decide, by decide, by decide⟩

/-- C8: a file passes validation iff it is in the finite whitelist (MIME type
among the five video types, or filename extension among the five video
extensions, case-insensitively); a valid drop selects the file and clears the
error, and any other drop sets the unsupported-format error and selects no
file. -/
theorem C8_upload_whitelist :
    (∀ f : MediaFile, isValidVideo f = true ↔ SpecWhitelisted f) ∧
    (∀ st f, isValidVideo f = true → handleDrop st (some f) = ⟨some f, none⟩) ∧
    (∀ st f, isValidVideo f = false →
      handleDrop st (some f) = ⟨st.file, some unsupportedFormatError⟩) ∧
    (∀ st, handleDrop st none = ⟨st.file, some unsupportedFormatError⟩) := by
  refine ⟨?_, ?_, ?_, ?_⟩
  · intro f
    simp [isValidVideo, SpecWhitelisted, validTypes, extMatch, videoExts,
      List.contains_cons, List.any_cons, List.any_nil]
  · intro st f h
    simp [handleDrop, h]
  · intro st f h
    simp [handleDrop, h]
  · intro st
    rfl

/-- Witness for C8: a PDF is rejected without selecting it, and a QuickTime
file with an upper-case extension is accepted. -/
theorem C8_upload_whitelist_witness :
    handleDrop ⟨none, none⟩ (some ⟨"application/pdf", "notes.pdf"⟩) =
      ⟨none, some unsupportedFormatError⟩ ∧
    handleDrop ⟨none, none⟩ (some ⟨"", "Lecture.MOV"⟩) =
      ⟨some ⟨"", "Lecture.MOV"⟩, none⟩ :=
  ⟨C8_upload_whitelist.2.2.1 ⟨none, none⟩ ⟨"application/pdf", "notes.pdf"⟩ (by decide),
   C8_upload_whitelist.2.1 ⟨none, none⟩ ⟨"", "Lecture.MOV"⟩ (by decide)⟩

/-- C9: over any event stream of one job that obeys the Progress Channel
contract (`ValidStream`, modelled from the spec since the server side is not
under src/), the progress values the subscriber observes are non-decreasing
and within [0,100]; the stream holds exactly one terminal event, after
processing it the subscriber has closed the socket, and further events leave
its state unchanged; and the simulated upload progress only moves upward and
never exceeds 100 when iterated from 0. -/
theorem C9_progress_stream (evs : List WsEvent) (h : ValidStream evs) :
    List.Chain' (· ≤ ·) (observedProgress evs) ∧
    (∀ v ∈ observedProgress evs, 0 ≤ v ∧ v ≤ 100) ∧
    List.countP isTerminalEv evs = 1 ∧
    (runWs initialWsState evs).closed = true ∧
    (∀ extra, runWs initialWsState (evs ++ extra) = runWs initialWsState evs) ∧
    (∀ p : Int, p ≤ uploadTick p) ∧
    (∀ n : Nat, 0 ≤ uploadTick^[n] (0 : Int) ∧ uploadTick^[n] (0 : Int) ≤ 100) := by
  obtain ⟨hchain, hbound, pre, t, rfl, ht, hpre⟩ := h
  have hpv : progressValues (pre ++ [t]) = progressValues pre :=
    progressValues_terminal_last pre t ht
  rw [hpv] at hchain hbound
  have hobs : observedProgress (pre ++ [t]) = progressValues pre ++ wsTraceAux false [t] :=
    wsTraceAux_false_append pre [t] hpre
  have hclosed : (runWs initialWsState (pre ++ [t])).closed = true := by
    rw [runWs_append]
    exact wsStep_terminal_closes _ t (runWs_progress_closed pre initialWsState rfl hpre) ht
  refine ⟨?_, ?_, ?_, hclosed, ?_, ?_, ?_⟩
  · rw [hobs]
    cases t with
    | progressEv v => simp [isTerminalEv] at ht
    | errorEv m =>
        simpa [wsTraceAux] using hchain
    | completeEv =>
        rw [List.chain'_append]
        refine ⟨hchain, by simp [wsTraceAux], ?_⟩
        intro x hx y hy
        simp [wsTraceAux] at hy
        subst hy
        obtain ⟨hne, hxeq⟩ := List.mem_getLast?_eq_getLast hx
        rw [hxeq]
        exact (hbound _ (List.getLast_mem hne)).2
  · rw [hobs]
    intro v hv
    rcases List.mem_append.mp hv with hv | hv
    · exact hbound v hv
    · cases t with
      | progressEv w => simp [isTerminalEv] at ht
      | errorEv m => simp [wsTraceAux] at hv
      | completeEv =>
          simp [wsTraceAux] at hv
          subst hv
          exact ⟨by norm_num, le_refl 100⟩
  · rw [List.countP_append]
    have h0 : List.countP isTerminalEv pre = 0 :=
      List.countP_eq_zero.mpr fun e he => by simp [hpre e he]
    rw [h0]
    simp [List.countP_cons, ht]
  · intro extra
    rw [runWs_append]
    exact runWs_closed extra _ hclosed
  · intro p
    unfold uploadTick
    split_ifs <;> omega
  · intro n
    induction n with
    | zero => simp
    | succ n ih =>
        obtain ⟨ih1, ih2⟩ := ih
        rw [Function.iterate_succ_apply']
        have hstep : uploadTick (uploadTick^[n] (0 : Int)) =
            if 90 ≤ uploadTick^[n] (0 : Int) then uploadTick^[n] (0 : Int)
            else uploadTick^[n] (0 : Int) + 10 := rfl
        rw [hstep]
        split_ifs <;> constructor <;> omega

/-- Witness for C9 on the sample stream 20, 50, 90, complete. -/
theorem C9_progress_stream_witness :
    List.countP isTerminalEv demoStream = 1 ∧
    (runWs initialWsState demoStream).closed = true :=
  have hv : ValidStream demoStream :=
    ⟨show List.Chain' (· ≤ ·) [(20 : Int), 50, 90] by simp,
     by decide,
     [WsEvent.progressEv 20, WsEvent.progressEv 50, WsEvent.progressEv 90],
     WsEvent.completeEv, rfl, rfl, by decide⟩
  ⟨(C9_progress_stream demoStream hv).2.2.1,
   (C9_progress_stream demoStream hv).2.2.2.1⟩

/-- C10: `sendMessage` is a no-op when the message is empty or whitespace-only
or a request is already in flight: the component state is returned unchanged
and no request is issued, so at most one chat request is in flight at a
time. -/
theorem C10_send_guard (st : ChatState) (text : String) (b : Option BackendReply)
    (h : strTrim text = "" ∨ st.isLoading = true) :
    sendMessage st text b = ⟨st, false⟩ := by
  rcases h with h | h <;> simp [sendMessage, h]

/-- Witness for C10 at a whitespace-only message. -/
theorem C10_send_guard_witness :
    sendMessage initialChatState ("   ") none = ⟨initialChatState, false⟩ :=
  C10_send_guard initialChatState ("   ") none (Or.inl (by decide))

end GinueAI
